import Mathlib

/-!
Shallow embedding of the BituGuard core logic (src/app/main.py and
src/app/ai_engine.py): grade-based quality verdicts, leakage/loss
computation at receipt creation, and the three read-only aggregators
(fraud alerts, supplier scorecard, monthly loss), together with the
state-changing save operations.  Python floats are modelled as exact
rationals; Python's `round(x, 2)` is modelled as round-half-to-even to
two decimal places; the SQLAlchemy tables are modelled as in-memory
lists in insertion order, and Python dict / defaultdict accumulators as
association lists in first-insertion order.
-/

namespace BituGuard

/-- One entry of the `limits` dict in `check_quality`
(main.py): `\x7b"pen": (lo, hi), "soft": s, "duct": d\x7d`. -/
structure GradeLimits where
  pen_lo : ℚ
  pen_hi : ℚ
  soft : ℚ
  duct : ℚ

deriving instance DecidableEq, Repr for GradeLimits

/-- The `limits` dict lookup `limits.get(grade)` in `check_quality`. -/
def limits (grade : String) : Option GradeLimits :=
  if grade = "VG10" then some ⟨80, 100, 40, 75⟩
  else if grade = "VG30" then some ⟨50, 70, 47, 75⟩
  else if grade = "VG40" then some ⟨40, 60, 50, 50⟩
  else none

/-- `check_quality(grade, penetration, softening, ductility)` from main.py:
grade-aware PASS/FAIL verdict. -/
def check_quality (grade : String) (penetration softening ductility : ℚ) :
    String :=
  match limits grade with
  | none => "FAIL"
  | some g =>
    if ¬ (g.pen_lo ≤ penetration ∧ penetration ≤ g.pen_hi) then "FAIL"
    else if softening < g.soft then "FAIL"
    else if ductility < g.duct then "FAIL"
    else "PASS"

/-- `bitumen_quality_ai(penetration, softening_point, ductility)` from
ai_engine.py: the ungraded three-tier PASS/RISK/FAIL policy.  It is defined
in the repository but never called from any endpoint. -/
def bitumen_quality_ai (penetration softening_point ductility : ℚ) :
    String × String :=
  if penetration < 50 ∨ penetration > 70 then
    ("FAIL", "Penetration out of acceptable range")
  else if softening_point < 47 then
    ("RISK", "Low softening point may cause rutting")
  else if ductility < 75 then
    ("RISK", "Low ductility – cracking risk")
  else
    ("PASS", "All parameters within acceptable limits")

/-- Round-half-to-even to an integer, as Python's `round(x)` behaves on
exact values. -/
def roundHalfEven (x : ℚ) : ℤ :=
  let f := ⌊x⌋
  if x - f < 1/2 then f
  else if x - f > 1/2 then f + 1
  else if f % 2 = 0 then f else f + 1

/-- Python's `round(x, 2)`: round to two decimal places. -/
def round2 (x : ℚ) : ℚ :=
  (roundHalfEven (x * 100) : ℚ) / 100

/-- The three derived quantities computed inline in `save_receipt`
(main.py): `loss_mt`, `loss_rupees`, `leakage_pct`. -/
structure LossResult where
  loss_mt : ℚ
  loss_rupees : ℚ
  leakage_pct : ℚ

deriving instance DecidableEq, Repr for LossResult

/-- The loss computation of `save_receipt` (main.py):
`loss_mt = max(0, quantity - received_quantity)`,
`loss_rupees = round(loss_mt * bitumen_rate, 2)`,
`leakage_pct = round(loss_mt / quantity * 100, 2) if quantity > 0 else 0`. -/
def compute_loss (invoiced received rate : ℚ) : LossResult :=
  let loss_mt := max 0 (invoiced - received)
  let loss_rupees := round2 (loss_mt * rate)
  let leakage_pct := if invoiced > 0 then round2 (loss_mt / invoiced * 100) else 0
  ⟨loss_mt, loss_rupees, leakage_pct⟩

/-- A calendar date (`datetime.date`): only `.year` and `.month` are read
by the aggregators. -/
structure CalDate where
  year : ℤ
  month : ℕ
  day : ℕ

deriving instance DecidableEq, Repr for CalDate

/-- A row of the `receipts` table (class `ReceiptDB` in main.py). -/
structure ReceiptDB where
  id : ℕ
  tanker_no : String
  grade : String
  quantity : ℚ
  received_quantity : ℚ
  bitumen_rate : ℚ
  supplier : String
  receipt_date : CalDate
  loss_mt : ℚ
  loss_rupees : ℚ
  leakage_pct : ℚ

deriving instance DecidableEq, Repr for ReceiptDB

/-- A row of the `labs` table (class `LabDB` in main.py). -/
structure LabDB where
  id : ℕ
  receipt_id : ℕ
  penetration : ℚ
  softening_point : ℚ
  ductility : ℚ
  verdict : String

deriving instance DecidableEq, Repr for LabDB

/-- The persisted state: both tables, rows in insertion order. -/
structure DB where
  receipts : List ReceiptDB
  labs : List LabDB

deriving instance DecidableEq, Repr for DB

/-- The SQLAlchemy relationship `lab.receipt`: look up the parent receipt
row by primary key. -/
def findReceipt (db : DB) (rid : ℕ) : Option ReceiptDB :=
  db.receipts.find? (fun r => r.id == rid)

/-- The request body of POST /save (pydantic model `Receipt`). -/
structure ReceiptIn where
  tanker_no : String
  grade : String
  quantity : ℚ
  received_quantity : ℚ
  bitumen_rate : ℚ
  supplier : String
  receipt_date : CalDate

deriving instance DecidableEq, Repr for ReceiptIn

/-- The request body of POST /lab (pydantic model `Lab`). -/
structure LabIn where
  receipt_id : ℕ
  penetration : ℚ
  softening_point : ℚ
  ductility : ℚ

deriving instance DecidableEq, Repr for LabIn

/-- Response of `save_receipt`: either the error dict or the success dict. -/
inductive SaveReceiptResult where
  | error (msg : String)
  | ok (receipt_id : ℕ) (loss_rupees leakage_pct : ℚ)

deriving instance DecidableEq, Repr for SaveReceiptResult

/-- Response of `save_lab`: either the error dict or the verdict dict. -/
inductive SaveLabResult where
  | error (msg : String)
  | ok (ai_verdict : String)

deriving instance DecidableEq, Repr for SaveLabResult

/-- `save_receipt` (main.py): reject a falsy (empty) grade, otherwise
compute the losses, insert the row and return its id and derived fields. -/
def save_receipt (db : DB) (data : ReceiptIn) : DB × SaveReceiptResult :=
  if data.grade = "" then (db, .error "Grade required")
  else
    let loss := compute_loss data.quantity data.received_quantity data.bitumen_rate
    let row : ReceiptDB :=
      { id := db.receipts.length + 1
        tanker_no := data.tanker_no
        grade := data.grade
        quantity := data.quantity
        received_quantity := data.received_quantity
        bitumen_rate := data.bitumen_rate
        supplier := data.supplier
        receipt_date := data.receipt_date
        loss_mt := loss.loss_mt
        loss_rupees := loss.loss_rupees
        leakage_pct := loss.leakage_pct }
    ({ db with receipts := db.receipts ++ [row] },
      .ok row.id loss.loss_rupees loss.leakage_pct)

/-- `save_lab` (main.py): reject an unknown receipt id, otherwise compute
the verdict with `check_quality` on the parent receipt's grade and insert
the lab row. -/
def save_lab (db : DB) (data : LabIn) : DB × SaveLabResult :=
  match findReceipt db data.receipt_id with
  | none => (db, .error "Invalid receipt ID")
  | some receipt =>
    let verdict := check_quality receipt.grade
      data.penetration data.softening_point data.ductility
    let lab : LabDB :=
      { id := db.labs.length + 1
        receipt_id := data.receipt_id
        penetration := data.penetration
        softening_point := data.softening_point
        ductility := data.ductility
        verdict := verdict }
    ({ db with labs := db.labs ++ [lab] }, .ok verdict)

/-- ASCII lower-casing of one character, as Python's `str.lower` acts on
ASCII letters. -/
def charLower (c : Char) : Char :=
  if 'A' ≤ c ∧ c ≤ 'Z' then Char.ofNat (c.toNat + 32) else c

/-- Python's `str.lower()` (ASCII fragment), used by `supplier_scorecard`
to normalize supplier keys. -/
def strLower (s : String) : String :=
  ⟨s.data.map charLower⟩

/-- One entry of the `alerts` list built by `fraud_alerts` (main.py). -/
structure Alert where
  type : String
  message : String

deriving instance DecidableEq, Repr for Alert

/-- The leakage pass of `fraud_alerts` (main.py): one LEAKAGE alert per
receipt with `leakage_pct >= 3`, in iteration order. -/
def leakageAlerts (receipts : List ReceiptDB) : List Alert :=
  receipts.filterMap (fun r =>
    if r.leakage_pct ≥ 3 then
      some ⟨"LEAKAGE",
        r.tanker_no ++ " (" ++ r.grade ++ ") leakage " ++
          toString r.leakage_pct ++ "%"⟩
    else none)

/-- `defaultdict(int)` increment `m[k] += 1`, keys kept in
first-insertion order as Python dicts do. -/
def bumpCount (m : List (String × ℕ)) (k : String) : List (String × ℕ) :=
  match m with
  | [] => [(k, 1)]
  | (k', v) :: rest =>
    if k' = k then (k', v + 1) :: rest else (k', v) :: bumpCount rest k

/-- The `supplier_fail` accumulator of `fraud_alerts`: count FAIL-verdict
lab rows by the exact supplier string of the parent receipt.  A lab row
whose receipt id is dangling contributes nothing (in the source it has no
parent to read). -/
def supplierFailCounts (db : DB) : List (String × ℕ) :=
  (db.labs.filter (fun lab => lab.verdict == "FAIL")).foldl
    (fun m lab =>
      match findReceipt db lab.receipt_id with
      | some r => bumpCount m r.supplier
      | none => m) []

/-- The supplier-quality pass of `fraud_alerts`: one alert per supplier
with at least 3 FAILs, in dict iteration order. -/
def supplierAlerts (db : DB) : List Alert :=
  (supplierFailCounts db).filterMap (fun p =>
    if p.2 ≥ 3 then
      some ⟨"SUPPLIER_QUALITY_RISK",
        p.1 ++ " has " ++ toString p.2 ++ " quality FAILs"⟩
    else none)

/-- GET /fraud/alerts (main.py): leakage pass then supplier-quality pass. -/
def fraud_alerts (db : DB) : List Alert :=
  leakageAlerts db.receipts ++ supplierAlerts db

/-- Value of the `data` dict in `supplier_scorecard` (main.py), keyed by
the lower-cased supplier name. -/
structure ScoreAcc where
  supplier : String
  tankers : ℕ
  total_leakage : ℚ
  quality_fails : ℕ

deriving instance DecidableEq, Repr for ScoreAcc

/-- The receipts pass of `supplier_scorecard`: group by lower-cased
supplier, keeping the first-seen original spelling, counting tankers and
summing leakage. -/
def scoreAddReceipt (m : List (String × ScoreAcc)) (r : ReceiptDB) :
    List (String × ScoreAcc) :=
  match m with
  | [] => [((strLower r.supplier),
      ⟨r.supplier, 1, r.leakage_pct, 0⟩)]
  | (k, a) :: rest =>
    if k = (strLower r.supplier) then
      (k, { a with tankers := a.tankers + 1,
                   total_leakage := a.total_leakage + r.leakage_pct }) :: rest
    else (k, a) :: scoreAddReceipt rest r

/-- The labs pass of `supplier_scorecard`: a FAIL-verdict lab bumps
`quality_fails` of its supplier's group only when the lower-cased key is
already present (`if key in data`). -/
def scoreAddFail (m : List (String × ScoreAcc)) (key : String) :
    List (String × ScoreAcc) :=
  match m with
  | [] => []
  | (k, a) :: rest =>
    if k = key then (k, { a with quality_fails := a.quality_fails + 1 }) :: rest
    else (k, a) :: scoreAddFail rest key

/-- One row of the GET /supplier/scorecard response. -/
structure SupplierScore where
  supplier : String
  tankers : ℕ
  avg_leakage_pct : ℚ
  quality_fails : ℕ
  risk : String

deriving instance DecidableEq, Repr for SupplierScore

/-- The risk-tier conditional of `supplier_scorecard` (main.py). -/
def riskTier (quality_fails : ℕ) (avg_leak : ℚ) : String :=
  if quality_fails ≥ 3 ∨ avg_leak ≥ 5 then "HIGH"
  else if quality_fails ≥ 1 ∨ avg_leak ≥ 3 then "MEDIUM"
  else "LOW"

/-- The result row built from one `data` group. -/
def scoreRow (a : ScoreAcc) : SupplierScore :=
  let avg_leak :=
    if a.tankers > 0 then round2 (a.total_leakage / (a.tankers : ℚ)) else 0
  ⟨a.supplier, a.tankers, avg_leak, a.quality_fails,
    riskTier a.quality_fails avg_leak⟩

/-- GET /supplier/scorecard (main.py): receipts pass, then labs pass over
FAIL verdicts (joined through the parent receipt; a dangling lab row
contributes nothing), then one result row per group in insertion order. -/
def supplier_scorecard (db : DB) : List SupplierScore :=
  let data0 := db.receipts.foldl scoreAddReceipt []
  let data := db.labs.foldl
    (fun m lab =>
      if lab.verdict == "FAIL" then
        match findReceipt db lab.receipt_id with
        | some r => scoreAddFail m (strLower r.supplier)
        | none => m
      else m) data0
  data.map (fun p => scoreRow p.2)

/-- `defaultdict(float)` accumulation `m[k] += v`, keys in
first-insertion order. -/
def bumpLoss (m : List (String × ℚ)) (k : String) (v : ℚ) :
    List (String × ℚ) :=
  match m with
  | [] => [(k, v)]
  | (k', x) :: rest =>
    if k' = k then (k', x + v) :: rest else (k', x) :: bumpLoss rest k v

/-- Response of GET /analytics/loss/monthly. -/
structure MonthlyLoss where
  year : ℤ
  month : ℕ
  total_loss_rupees : ℚ
  supplier_loss : List (String × ℚ)

deriving instance DecidableEq, Repr for MonthlyLoss

/-- Does a receipt's date fall in the requested calendar year and month
(the filter of `monthly_loss` and `audit_excel` in main.py)? -/
def inMonth (r : ReceiptDB) (year : ℤ) (month : ℕ) : Bool :=
  r.receipt_date.year == year && r.receipt_date.month == month

/-- The loop body of `monthly_loss`: add a receipt's `loss_rupees` to
both accumulators when its date is in the requested month. -/
def monthlyStep (year : ℤ) (month : ℕ) (acc : ℚ × List (String × ℚ))
    (r : ReceiptDB) : ℚ × List (String × ℚ) :=
  if inMonth r year month then
    (acc.1 + r.loss_rupees, bumpLoss acc.2 r.supplier r.loss_rupees)
  else acc

/-- GET /analytics/loss/monthly (main.py): sum `loss_rupees` of the
receipts in the requested month into a total and a per-supplier
(exact-case) accumulator. -/
def monthly_loss (receipts : List ReceiptDB) (year : ℤ) (month : ℕ) :
    MonthlyLoss :=
  let acc := receipts.foldl (monthlyStep year month) (0, [])
  ⟨year, month, acc.1, acc.2⟩

/-! Concrete fixtures used by the scenario parts of the claims. -/

/-- A receipt whose stored `leakage_pct` is exactly 3.00. -/
def receiptLeak3 : ReceiptDB :=
  ⟨1, "T1", "VG30", 100, 97, 55000, "S", ⟨2024, 1, 5⟩, 3, 165000, 3⟩

/-- A receipt whose stored `leakage_pct` is 2.99. -/
def receiptLeak299 : ReceiptDB :=
  ⟨1, "T1", "VG30", 100, 100, 55000, "S", ⟨2024, 1, 5⟩, 0, 0, 2.99⟩

/-- A receipt from supplier "Acme" with no leakage. -/
def receiptAcme : ReceiptDB :=
  ⟨1, "T1", "VG30", 100, 100, 55000, "Acme", ⟨2024, 1, 5⟩, 0, 0, 0⟩

/-- A receipt from supplier "acme" (lower case) with no leakage. -/
def receiptLowerAcme : ReceiptDB :=
  ⟨2, "T2", "VG30", 100, 100, 55000, "acme", ⟨2024, 1, 6⟩, 0, 0, 0⟩

/-- A stored FAIL-verdict lab row for a given receipt. -/
def failLab (i rid : ℕ) : LabDB := ⟨i, rid, 0, 0, 0, "FAIL"⟩

/-- Three FAIL labs split across the "Acme" and "acme" receipts. -/
def dbSplitCase : DB :=
  ⟨[receiptAcme, receiptLowerAcme], [failLab 1 1, failLab 2 1, failLab 3 2]⟩

/-- Three FAIL labs all under the one exact spelling "Acme". -/
def dbExactCase : DB :=
  ⟨[receiptAcme], [failLab 1 1, failLab 2 1, failLab 3 1]⟩

/-- A state producing both alert kinds: one receipt at the 3% leakage
threshold and three FAIL labs for its supplier. -/
def dbOrdered : DB :=
  ⟨[⟨1, "T1", "VG30", 100, 97, 55000, "S", ⟨2024, 1, 5⟩, 3, 165000, 3⟩],
   [⟨1, 1, 0, 0, 0, "FAIL"⟩, ⟨2, 1, 0, 0, 0, "FAIL"⟩, ⟨3, 1, 0, 0, 0, "FAIL"⟩]⟩

/-- The LEAKAGE alert `fraud_alerts` emits for `dbOrdered`. -/
def alertLeakW : Alert :=
  ⟨"LEAKAGE", "T1" ++ " (" ++ "VG30" ++ ") leakage " ++ toString (3 : ℚ) ++ "%"⟩

/-- The SUPPLIER_QUALITY_RISK alert `fraud_alerts` emits for `dbOrdered`. -/
def alertSupW : Alert :=
  ⟨"SUPPLIER_QUALITY_RISK", "S" ++ " has " ++ toString (3 : ℕ) ++ " quality FAILs"⟩

/-- A receipt dated on the last day of January 2024, with a stored loss. -/
def receiptJan31 : ReceiptDB :=
  ⟨1, "T1", "VG30", 100, 97, 55000, "S", ⟨2024, 1, 31⟩, 3, 165000, 3⟩

/-- A receipt dated on the first day of February 2024, with a stored loss. -/
def receiptFeb01 : ReceiptDB :=
  ⟨2, "T2", "VG30", 100, 97, 55000, "S", ⟨2024, 2, 1⟩, 3, 165000, 3⟩

/-- A state with one VG30 receipt and no labs yet. -/
def dbOneVG30 : DB :=
  ⟨[⟨1, "T1", "VG30", 100, 97, 55000, "S", ⟨2024, 1, 5⟩, 3, 165000, 3⟩], []⟩

/-- A lab submission for receipt 1 whose measurements pass VG30. -/
def labReqPass : LabIn := ⟨1, 60, 50, 80⟩

end BituGuard

namespace BituGuard

/-! Helper lemmas about the verdict engine. -/

/-- The PASS condition of `check_quality` for a grade with bounds. -/
lemma check_quality_pass_iff (grade : String) (g : GradeLimits)
    (hg : limits grade = some g) (p s d : ℚ) :
    check_quality grade p s d = "PASS" ↔
      g.pen_lo ≤ p ∧ p ≤ g.pen_hi ∧ g.soft ≤ s ∧ g.duct ≤ d := by
  unfold check_quality
  rw [hg]
  dsimp only
  by_cases h1 : g.pen_lo ≤ p ∧ p ≤ g.pen_hi
  · rw [if_neg (not_not.2 h1)]
    by_cases h2 : s < g.soft
    · rw [if_pos h2]
      exact iff_of_false (by decide) (fun h => absurd h.2.2.1 (not_le.2 h2))
    · rw [if_neg h2]
      by_cases h3 : d < g.duct
      · rw [if_pos h3]
        exact iff_of_false (by decide) (fun h => absurd h.2.2.2 (not_le.2 h3))
      · rw [if_neg h3]
        exact iff_of_true rfl ⟨h1.1, h1.2, not_lt.1 h2, not_lt.1 h3⟩
  · rw [if_pos h1]
    exact iff_of_false (by decide) (fun h => h1 ⟨h.1, h.2.1⟩)

/-- `check_quality` only ever returns PASS or FAIL. -/
lemma check_quality_range (grade : String) (p s d : ℚ) :
    check_quality grade p s d = "PASS" ∨ check_quality grade p s d = "FAIL" := by
  unfold check_quality
  cases limits grade with
  | none => exact Or.inr rfl
  | some g =>
    dsimp only
    split_ifs <;> simp

/-- Claim C1: for every grade with defined bounds (VG10: penetration
80–100, softening ≥ 40, ductility ≥ 75; VG30: 50–70, ≥ 47, ≥ 75; VG40:
40–60, ≥ 50, ≥ 50) `check_quality` returns PASS iff penetration lies in
the inclusive range, the softening point is at least its minimum and the
ductility at least its minimum; whenever it does not return PASS it
returns FAIL; and for any grade outside the rule table it returns FAIL
for all measurements. -/
theorem C1_verdict_engine :
    (∀ p s d : ℚ,
      (check_quality "VG10" p s d = "PASS" ↔
        80 ≤ p ∧ p ≤ 100 ∧ 40 ≤ s ∧ 75 ≤ d) ∧
      (check_quality "VG30" p s d = "PASS" ↔
        50 ≤ p ∧ p ≤ 70 ∧ 47 ≤ s ∧ 75 ≤ d) ∧
      (check_quality "VG40" p s d = "PASS" ↔
        40 ≤ p ∧ p ≤ 60 ∧ 50 ≤ s ∧ 50 ≤ d)) ∧
    (∀ (grade : String) (p s d : ℚ),
      check_quality grade p s d ≠ "PASS" → check_quality grade p s d = "FAIL") ∧
    (∀ (grade : String) (p s d : ℚ), limits grade = none →
      check_quality grade p s d = "FAIL") := by
  refine ⟨fun p s d => ⟨?_, ?_, ?_⟩, ?_, ?_⟩
  · exact check_quality_pass_iff "VG10" ⟨80, 100, 40, 75⟩ rfl p s d
  · exact check_quality_pass_iff "VG30" ⟨50, 70, 47, 75⟩ rfl p s d
  · exact check_quality_pass_iff "VG40" ⟨40, 60, 50, 50⟩ rfl p s d
  · intro grade p s d h
    rcases check_quality_range grade p s d with h' | h'
    · exact absurd h' h
    · exact h'
  · intro grade p s d hg
    unfold check_quality
    rw [hg]

/-- Witness for C1 at concrete inputs: the grade "VG50" has no rule, so
any measurement fails, and a non-PASS verdict for VG30 is a FAIL. -/
theorem C1_verdict_engine_witness :
    check_quality "VG50" 60 50 80 = "FAIL" ∧
    check_quality "VG30" 10 50 80 = "FAIL" :=
  ⟨C1_verdict_engine.2.2 "VG50" 60 50 80 (by decide),
   C1_verdict_engine.2.1 "VG30" 10 50 80 (by
    intro h
    have := (check_quality_pass_iff "VG30" ⟨50, 70, 47, 75⟩ rfl 10 50 80).1 h
    norm_num at this)⟩

/-! Helper lemmas about the loss calculator. -/

/-- Rounding zero to two decimals gives zero. -/
lemma round2_zero : round2 0 = 0 := by
  simp [round2, roundHalfEven]

/-- Claim C2: the loss computation at receipt creation satisfies
`loss_mt = max(0, invoiced - received)` and
`loss_rupees = round(loss_mt * rate, 2)`; whenever the received quantity
is at least the invoiced one all three derived values are zero; and on
the concrete input (100, 97, 55000) it yields loss mass 3, loss value
165000.00 and leakage 3.00 percent. -/
theorem C2_loss_computation :
    (∀ invoiced received rate : ℚ,
      (compute_loss invoiced received rate).loss_mt
          = max 0 (invoiced - received) ∧
      (compute_loss invoiced received rate).loss_rupees
          = round2 (max 0 (invoiced - received) * rate)) ∧
    (∀ invoiced received rate : ℚ, invoiced ≤ received →
      compute_loss invoiced received rate = ⟨0, 0, 0⟩) ∧
    compute_loss 100 97 55000 = ⟨3, 165000, 3⟩ := by
  refine ⟨fun invoiced received rate => ⟨rfl, rfl⟩, ?_, ?_⟩
  · intro invoiced received rate h
    have hm : max 0 (invoiced - received) = 0 :=
      max_eq_left (by linarith)
    simp only [compute_loss, hm, zero_mul, round2_zero]
    split_ifs with h0
    · rw [zero_div, zero_mul, round2_zero]
    · rfl
  · simp [compute_loss, round2, roundHalfEven]
    norm_num

/-- Witness for C2 at a concrete over-delivery: invoicing 100 and
receiving 100 yields zero loss. -/
theorem C2_loss_computation_witness :
    compute_loss 100 100 55000 = ⟨0, 0, 0⟩ :=
  C2_loss_computation.2.1 100 100 55000 (by norm_num)

/-- Claim C8: the leakage percentage never requires a division by zero:
for every input with invoiced quantity at most 0 (including invoiced = 0
and received = 0) the guarded division branch is not taken and the
leakage percentage is defined to be 0. -/
theorem C8_no_division_by_zero :
    (∀ invoiced received rate : ℚ, invoiced ≤ 0 →
      (compute_loss invoiced received rate).leakage_pct = 0) ∧
    (compute_loss 0 0 55000).leakage_pct = 0 := by
  constructor
  · intro invoiced received rate h
    simp only [compute_loss]
    rw [if_neg (not_lt.2 h)]
  · simp [compute_loss]

/-- Witness for C8 at the concrete input (0, 0, 55000). -/
theorem C8_no_division_by_zero_witness :
    (compute_loss 0 0 55000).leakage_pct = 0 :=
  C8_no_division_by_zero.1 0 0 55000 le_rfl

/-- Claim C9: rejected create operations leave the stored state
unchanged: saving a lab report whose receipt id does not exist returns
the error response and the state untouched, and saving a receipt with a
blank grade returns the error response and the state untouched. -/
theorem C9_rejected_creates_no_mutation :
    (∀ (db : DB) (data : LabIn), findReceipt db data.receipt_id = none →
      save_lab db data = (db, .error "Invalid receipt ID")) ∧
    (∀ (db : DB) (data : ReceiptIn), data.grade = "" →
      save_receipt db data = (db, .error "Grade required")) := by
  constructor
  · intro db data h
    unfold save_lab
    rw [h]
  · intro db data h
    unfold save_receipt
    rw [if_pos h]

/-- Witness for C9: against the empty store, a lab report for receipt 1
and a receipt with a blank grade are both rejected without mutation. -/
theorem C9_rejected_creates_no_mutation_witness :
    save_lab ⟨[], []⟩ ⟨1, 60, 50, 80⟩ = (⟨[], []⟩, .error "Invalid receipt ID") ∧
    save_receipt ⟨[], []⟩ ⟨"T1", "", 100, 97, 55000, "S", ⟨2024, 1, 5⟩⟩
      = (⟨[], []⟩, .error "Grade required") :=
  ⟨C9_rejected_creates_no_mutation.1 ⟨[], []⟩ ⟨1, 60, 50, 80⟩ rfl,
   C9_rejected_creates_no_mutation.2 ⟨[], []⟩
     ⟨"T1", "", 100, 97, 55000, "S", ⟨2024, 1, 5⟩⟩ rfl⟩

/-! Helper lemmas about the fraud-alert aggregator. -/

/-- Every alert the supplier-quality pass emits has type
SUPPLIER_QUALITY_RISK. -/
lemma mem_supplierAlerts_type (db : DB) (a : Alert)
    (h : a ∈ supplierAlerts db) : a.type = "SUPPLIER_QUALITY_RISK" := by
  unfold supplierAlerts at h
  rw [List.mem_filterMap] at h
  obtain ⟨p, _, hp⟩ := h
  by_cases h3 : p.2 ≥ 3
  · rw [if_pos h3] at hp
    simp only [Option.some.injEq] at hp
    subst hp
    rfl
  · rw [if_neg h3] at hp
    cases hp

/-- Every alert the leakage pass emits has type LEAKAGE. -/
lemma mem_leakageAlerts_type (rs : List ReceiptDB) (a : Alert)
    (h : a ∈ leakageAlerts rs) : a.type = "LEAKAGE" := by
  unfold leakageAlerts at h
  rw [List.mem_filterMap] at h
  obtain ⟨r, _, hr⟩ := h
  by_cases h3 : r.leakage_pct ≥ 3
  · rw [if_pos h3] at hr
    simp only [Option.some.injEq] at hr
    subst hr
    rfl
  · rw [if_neg h3] at hr
    cases hr

/-- The leakage pass emits exactly one alert per receipt whose stored
leakage is at least 3. -/
lemma leakageAlerts_filter_length (rs : List ReceiptDB) :
    ((leakageAlerts rs).filter (fun a => a.type == "LEAKAGE")).length
      = (rs.filter (fun r => decide (3 ≤ r.leakage_pct))).length := by
  induction rs with
  | nil => rfl
  | cons r rs ih =>
    simp only [leakageAlerts, List.filterMap_cons] at *
    by_cases h : r.leakage_pct ≥ 3
    · rw [if_pos h, List.filter_cons, List.filter_cons]
      simp only [ge_iff_le] at h
      simp [h, ih]
    · rw [if_neg h, List.filter_cons]
      simp only [ge_iff_le, not_le] at h
      simp [not_le.2 h, ih]

/-- Claim C3: in the fraud-alert aggregator a receipt emits exactly one
LEAKAGE alert iff its stored `leakage_pct` is at least 3: over any state
the number of LEAKAGE alerts equals the number of receipts with
`leakage_pct ≥ 3`; a lone receipt with leakage 3.00 triggers exactly one
LEAKAGE alert and a lone receipt with leakage 2.99 triggers none. -/
theorem C3_leakage_threshold :
    (∀ db : DB,
      ((fraud_alerts db).filter (fun a => a.type == "LEAKAGE")).length
        = (db.receipts.filter (fun r => decide (3 ≤ r.leakage_pct))).length) ∧
    ((fraud_alerts ⟨[receiptLeak3], []⟩).filter
        (fun a => a.type == "LEAKAGE")).length = 1 ∧
    ((fraud_alerts ⟨[receiptLeak299], []⟩).filter
        (fun a => a.type == "LEAKAGE")).length = 0 := by
  have key : ∀ db : DB,
      ((fraud_alerts db).filter (fun a => a.type == "LEAKAGE")).length
        = (db.receipts.filter (fun r => decide (3 ≤ r.leakage_pct))).length := by
    intro db
    unfold fraud_alerts
    rw [List.filter_append, List.length_append]
    have hsup : (supplierAlerts db).filter (fun a => a.type == "LEAKAGE") = [] := by
      rw [List.filter_eq_nil_iff]
      intro a ha
      rw [mem_supplierAlerts_type db a ha]
      decide
    rw [hsup, leakageAlerts_filter_length]
    simp
  refine ⟨key, ?_, ?_⟩
  · rw [key]
    simp [receiptLeak3]
  · rw [key]
    simp [receiptLeak299]
    norm_num

/-- Claim C4: supplier names differing only in case are pooled by the
scorecard aggregator but not by the fraud-alert aggregator: three FAIL
labs split across the "Acme" and "acme" receipts yield a single
scorecard entry with quality_fails = 3 yet no SUPPLIER_QUALITY_RISK
alert, while three FAILs under the one exact spelling "Acme" yield
exactly one such alert. -/
theorem C4_case_sensitivity_split :
    supplier_scorecard dbSplitCase = [⟨"Acme", 2, 0, 3, "HIGH"⟩] ∧
    ((fraud_alerts dbSplitCase).filter
        (fun a => a.type == "SUPPLIER_QUALITY_RISK")).length = 0 ∧
    ((fraud_alerts dbExactCase).filter
        (fun a => a.type == "SUPPLIER_QUALITY_RISK")).length = 1 := by
  refine ⟨?_, ?_, ?_⟩ <;>
    simp [supplier_scorecard, fraud_alerts, dbSplitCase, dbExactCase,
      receiptAcme, receiptLowerAcme, failLab, scoreAddReceipt, scoreAddFail,
      strLower, charLower, findReceipt, scoreRow, round2, roundHalfEven,
      riskTier, leakageAlerts, supplierAlerts, supplierFailCounts, bumpCount]

/-- Claim C5: the scorecard risk tier follows the precedence HIGH when
quality_fails ≥ 3 or avg_leakage ≥ 5, else MEDIUM when quality_fails ≥ 1
or avg_leakage ≥ 3, else LOW; at the boundaries, 3 fails with zero
leakage give HIGH, zero fails with 2.99 average give LOW, 3.00 average
with zero fails gives MEDIUM; and every scorecard row carries exactly
this tier of its own counts. -/
theorem C5_risk_tier_precedence :
    (∀ (qf : ℕ) (avg : ℚ),
      ((qf ≥ 3 ∨ avg ≥ 5) → riskTier qf avg = "HIGH") ∧
      (¬(qf ≥ 3 ∨ avg ≥ 5) → (qf ≥ 1 ∨ avg ≥ 3) →
        riskTier qf avg = "MEDIUM") ∧
      (¬(qf ≥ 3 ∨ avg ≥ 5) → ¬(qf ≥ 1 ∨ avg ≥ 3) →
        riskTier qf avg = "LOW")) ∧
    riskTier 3 0 = "HIGH" ∧
    riskTier 0 (2.99 : ℚ) = "LOW" ∧
    riskTier 0 3 = "MEDIUM" ∧
    (∀ db : DB, ∀ s ∈ supplier_scorecard db,
      s.risk = riskTier s.quality_fails s.avg_leakage_pct) := by
  refine ⟨?_, ?_, ?_, ?_, ?_⟩
  · intro qf avg
    refine ⟨?_, ?_, ?_⟩
    · intro h
      unfold riskTier
      rw [if_pos h]
    · intro h1 h2
      unfold riskTier
      rw [if_neg h1, if_pos h2]
    · intro h1 h2
      unfold riskTier
      rw [if_neg h1, if_neg h2]
  · norm_num [riskTier]
  · norm_num [riskTier]
  · norm_num [riskTier]
  · intro db s hs
    unfold supplier_scorecard at hs
    rw [List.mem_map] at hs
    obtain ⟨p, _, rfl⟩ := hs
    rfl

/-- Witness for C5 at the concrete input (5, 0): five quality fails give
the HIGH tier. -/
theorem C5_risk_tier_precedence_witness : riskTier 5 0 = "HIGH" :=
  (C5_risk_tier_precedence.1 5 0).1 (Or.inl (by norm_num))

/-- Claim C6: in the fraud-alert output every LEAKAGE alert appears
before every SUPPLIER_QUALITY_RISK alert, for any stored state. -/
theorem C6_leakage_before_supplier (db : DB) (i j : ℕ) (a b : Alert)
    (ha : (fraud_alerts db)[i]? = some a)
    (hb : (fraud_alerts db)[j]? = some b)
    (hA : a.type = "LEAKAGE")
    (hB : b.type = "SUPPLIER_QUALITY_RISK") :
    i < j := by
  have hi : i < (leakageAlerts db.receipts).length := by
    by_contra hi
    rw [not_lt] at hi
    rw [show fraud_alerts db = leakageAlerts db.receipts ++ supplierAlerts db
        from rfl, List.getElem?_append_right hi] at ha
    have := mem_supplierAlerts_type db a (List.getElem?_mem ha)
    rw [hA] at this
    exact absurd this (by decide)
  have hj : (leakageAlerts db.receipts).length ≤ j := by
    by_contra hj
    rw [not_le] at hj
    rw [show fraud_alerts db = leakageAlerts db.receipts ++ supplierAlerts db
        from rfl, List.getElem?_append_left hj] at hb
    have := mem_leakageAlerts_type db.receipts b (List.getElem?_mem hb)
    rw [hB] at this
    exact absurd this (by decide)
  exact lt_of_lt_of_le hi hj

/-- Witness for C6: in the state `dbOrdered` both alert kinds occur, the
LEAKAGE alert at index 0 and the SUPPLIER_QUALITY_RISK alert at index 1,
so the theorem yields 0 < 1. -/
theorem C6_leakage_before_supplier_witness : 0 < 1 :=
  C6_leakage_before_supplier dbOrdered 0 1 alertLeakW alertSupW
    rfl rfl rfl rfl

/-! Helper lemmas about the monthly aggregator. -/

/-- The running total of the monthly fold is the initial total plus the
sum of `loss_rupees` over the receipts of the requested month. -/
lemma monthly_foldl_total (year : ℤ) (month : ℕ) (rs : List ReceiptDB)
    (t : ℚ) (m : List (String × ℚ)) :
    (rs.foldl (monthlyStep year month) (t, m)).1
      = t + ((rs.filter (fun r => inMonth r year month)).map
          (fun r => r.loss_rupees)).sum := by
  induction rs generalizing t m with
  | nil => simp
  | cons r rs ih =>
    rw [List.foldl_cons, List.filter_cons]
    by_cases h : inMonth r year month = true
    · rw [if_pos h, show monthlyStep year month (t, m) r
          = (t + r.loss_rupees, bumpLoss m r.supplier r.loss_rupees) from by
            unfold monthlyStep
            rw [if_pos h]]
      rw [ih]
      simp only [List.map_cons, List.sum_cons]
      ring
    · rw [if_neg h, show monthlyStep year month (t, m) r = (t, m) from by
          unfold monthlyStep
          rw [if_neg h]]
      exact ih t m

/-- When no receipt is in the requested month the monthly fold leaves
its accumulator untouched. -/
lemma monthly_foldl_skip (year : ℤ) (month : ℕ) (rs : List ReceiptDB)
    (acc : ℚ × List (String × ℚ))
    (h : ∀ r ∈ rs, inMonth r year month = false) :
    rs.foldl (monthlyStep year month) acc = acc := by
  induction rs generalizing acc with
  | nil => rfl
  | cons r rs ih =>
    rw [List.foldl_cons, show monthlyStep year month acc r = acc from by
      unfold monthlyStep
      rw [if_neg (by
        rw [h r (List.mem_cons_self r rs)]
        exact Bool.false_ne_true)]]
    exact ih acc (fun r' hr' => h r' (List.mem_cons_of_mem r hr'))

/-- Claim C7: the monthly loss aggregator includes a receipt in its sums
iff the receipt date's calendar year and month equal the requested ones:
the total is exactly the sum of `loss_rupees` over the matching
receipts; when nothing matches the result is a zero total and an empty
supplier mapping; and on the month boundary a receipt dated 2024-01-31
is in month (2024, 1) while one dated 2024-02-01 is not, so of the two
only the January receipt is summed. -/
theorem C7_monthly_filter :
    (∀ (receipts : List ReceiptDB) (year : ℤ) (month : ℕ),
      (monthly_loss receipts year month).total_loss_rupees
        = ((receipts.filter (fun r => inMonth r year month)).map
            (fun r => r.loss_rupees)).sum) ∧
    (∀ (receipts : List ReceiptDB) (year : ℤ) (month : ℕ),
      (∀ r ∈ receipts, inMonth r year month = false) →
      monthly_loss receipts year month = ⟨year, month, 0, []⟩) ∧
    inMonth receiptJan31 2024 1 = true ∧
    inMonth receiptFeb01 2024 1 = false ∧
    monthly_loss [receiptJan31, receiptFeb01] 2024 1
      = ⟨2024, 1, 165000, [("S", 165000)]⟩ := by
  refine ⟨?_, ?_, rfl, rfl, ?_⟩
  · intro receipts year month
    show (receipts.foldl (monthlyStep year month) (0, [])).1 = _
    rw [monthly_foldl_total]
    simp
  · intro receipts year month h
    show (⟨year, month, (receipts.foldl (monthlyStep year month) (0, [])).1,
        (receipts.foldl (monthlyStep year month) (0, [])).2⟩ : MonthlyLoss) = _
    rw [monthly_foldl_skip year month receipts (0, []) h]
  · simp [monthly_loss, monthlyStep, receiptJan31, receiptFeb01, inMonth, bumpLoss]

/-- Witness for C7: the February receipt alone contributes nothing to
the January 2024 report. -/
theorem C7_monthly_filter_witness :
    monthly_loss [receiptFeb01] 2024 1 = ⟨2024, 1, 0, []⟩ :=
  C7_monthly_filter.2.1 [receiptFeb01] 2024 1 (by
    intro r hr
    rw [List.mem_singleton] at hr
    subst hr
    rfl)

/-- Claim C10: every lab record created through `save_lab` has verdict
PASS or FAIL — the RISK verdict is never stored, since `save_lab`
computes verdicts only via the grade-aware `check_quality`, whose range
is exactly PASS/FAIL, while the three-tier `bitumen_quality_ai` (the
only producer of RISK, shown here returning RISK on an in-range
penetration with a low softening point) is not called by any operation:
states whose labs all carry PASS-or-FAIL verdicts are preserved by
`save_lab`. -/
theorem C10_no_risk_verdict_stored :
    (∀ (grade : String) (p s d : ℚ),
      check_quality grade p s d = "PASS" ∨
      check_quality grade p s d = "FAIL") ∧
    (∀ (db : DB) (data : LabIn),
      (∀ lab ∈ db.labs, lab.verdict = "PASS" ∨ lab.verdict = "FAIL") →
      ∀ lab ∈ (save_lab db data).1.labs,
        lab.verdict = "PASS" ∨ lab.verdict = "FAIL") ∧
    (bitumen_quality_ai 60 40 80).1 = "RISK" := by
  refine ⟨check_quality_range, ?_, ?_⟩
  · intro db data hinv lab hlab
    unfold save_lab at hlab
    cases hfind : findReceipt db data.receipt_id with
    | none =>
      rw [hfind] at hlab
      exact hinv lab hlab
    | some receipt =>
      rw [hfind] at hlab
      dsimp only at hlab
      rw [List.mem_append] at hlab
      rcases hlab with h | h
      · exact hinv lab h
      · rw [List.mem_singleton] at h
        subst h
        exact check_quality_range receipt.grade
          data.penetration data.softening_point data.ductility
  · norm_num [bitumen_quality_ai]

/-- Witness for C10: submitting `labReqPass` against `dbOneVG30` stores
the single lab row with verdict "PASS", which is PASS or FAIL. -/
theorem C10_no_risk_verdict_stored_witness :
    (⟨1, 1, 60, 50, 80, "PASS"⟩ : LabDB).verdict = "PASS" ∨
    (⟨1, 1, 60, 50, 80, "PASS"⟩ : LabDB).verdict = "FAIL" :=
  C10_no_risk_verdict_stored.2.1 dbOneVG30 labReqPass
    (by intro lab h; exact absurd h (by simp [dbOneVG30]))
    ⟨1, 1, 60, 50, 80, "PASS"⟩
    (show _ ∈ (save_lab dbOneVG30 labReqPass).1.labs from
      List.mem_append_right _ (List.mem_singleton.mpr rfl))

end BituGuard
